import Mathlib

/-!
Shallow embedding of the Bridge Pairing and Secure Connection Orchestrator
(companion module for the Lutron Caseta bridge, source file src/main.ts with
its configuration types in src/config.ts).

The embedding models the second (current) revision of main.ts: the module
state carries a configuration record, a secrets record holding an optional
complete certificate bundle, the discovered-bridges mapping and the device
list.  Network interaction is represented by explicit environment records
(the outcome of each connect call, the inbound message stream of the pairing
connection, the CSR signing response, the device enumeration), and each
orchestration entry point (pairWithBridge, connectToBridge, init,
configUpdated) is a pure function from state and environment to a result
state, an outcome and a trace of observable events.
-/

namespace Caseta

/-- Fixed pairing endpoint port (PAIRING_PORT in main.ts). -/
def PAIRING_PORT : Nat := 8083

/-- Fixed session endpoint port (LEAP_PORT in main.ts). -/
def LEAP_PORT : Nat := 8081

/-- Sentinel bridge identifier meaning "awaiting resolution"
(UNKNOWN_BRIDGE_ID in main.ts). -/
def UNKNOWN_BRIDGE_ID : String := "unknown-bridge-id"

/-- Credential bundle (interface BridgeCerts in config.ts): all three fields
are required by the source type, so a stored bundle is always complete. -/
structure BridgeCerts where
  ca : String
  certificate : String
  privateKey : String
deriving Repr, DecidableEq

/-- Module configuration record (interface ModuleConfig in config.ts). -/
structure ModuleConfig where
  host : String
  port : Nat
  bridgeID : Option String
deriving Repr, DecidableEq

/-- Module secrets record (interface ModuleSecrets in config.ts). -/
structure ModuleSecrets where
  bridgeCerts : Option BridgeCerts
deriving Repr, DecidableEq

/-- Device descriptor as consumed from the enumeration
(fields of DeviceDefinition used by main.ts). -/
structure DeviceDefinition where
  Name : String
  SerialNumber : String
  DeviceType : String
  ModelNumber : String
  AssociatedArea : Option String
deriving Repr, DecidableEq

/-- In-memory state of a ModuleInstance: configuration, secrets, the
discovered-bridges mapping (a JS object keyed by address, modelled as a
lookup function) and the accumulated device list. -/
structure ModuleState where
  config : ModuleConfig
  secrets : ModuleSecrets
  discoveredBridges : String → Option String
  devicesOnBridge : List DeviceDefinition

/-- An inbound message on the pairing connection: its permission grants and
its arrival time in milliseconds after the confirmation wait begins. -/
structure PairMessage where
  permissions : List String
  arrival : Nat
deriving Repr, DecidableEq

/-- The CSR signing response: status code, returned certificates, and its
arrival time in milliseconds after the CSR was submitted. -/
structure CsrResponse where
  statusCode : String
  rootCertificate : String
  certificate : String
  arrival : Nat
deriving Repr, DecidableEq

/-- Failure exits of pairWithBridge, one per early return or uncaught
rejection in the source. -/
inductive PairError where
  | transportError
  | pairingTimeout
  | keyGenerationFailed
  | csrTimeout
  | csrRejected (raw : CsrResponse)
deriving Repr, DecidableEq

/-- Observable events emitted by an orchestration run, used to state
ordering properties. -/
inductive Event where
  | discoveryStart
  | pairStart
  | keygen
  | csrSubmit
  | persistCerts (b : BridgeCerts)
  | pairDone (e : Option PairError)
  | sessionConnect (host : String) (b : BridgeCerts)
  | enumerate
deriving Repr, DecidableEq

/-- One item of the device enumeration: either a per-item transport error or
a device descriptor (the devices array in connectToBridge holds both). -/
inductive EnumItem where
  | err (msg : String)
  | dev (d : DeviceDefinition)
deriving Repr, DecidableEq

/-- Environment of one pairWithBridge run: whether the pairing transport
connect succeeds, the inbound message stream during the confirmation wait,
whether key generation succeeds, the PEM encoding of the generated private
key, and the first inbound message after the CSR submission (none when the
bridge never answers). -/
structure PairEnv where
  connectOk : Bool
  messages : List PairMessage
  keygenOk : Bool
  privateKeyPem : String
  csrResponse : Option CsrResponse

/-- Environment of one connectToBridge run: whether the authenticated
session connect succeeds and the device enumeration it returns. -/
structure ConnectEnv where
  connectOk : Bool
  devices : List EnumItem

/-- Result of a pairWithBridge run. -/
structure PairResult where
  state : ModuleState
  outcome : Option PairError
  trace : List Event

/-- Result of a connectToBridge, init or configUpdated run. -/
structure RunResult where
  state : ModuleState
  trace : List Event

/-- Predicate of the message handler in the confirmation wait: the message
arrives before the 30000 ms timer fires and its permission set includes
PhysicalAccess. -/
def confirmingMessage (m : PairMessage) : Bool :=
  decide (m.arrival < 30000) && m.permissions.contains "PhysicalAccess"

/-- Resolution of the confirmation wait as the code implements it: the
handler is registered with client.once, so only the first inbound message is
ever examined; the wait resolves exactly when that first message is a
confirming one. -/
def confirmationResolves : List PairMessage → Bool
  | [] => false
  | m :: _ => confirmingMessage m

/-- Modelled from the spec: resolution of the confirmation wait as the
specification describes it (section 4.3 step 2): non-confirming messages are
logged and ignored and the wait continues, so the wait resolves when any
confirming message arrives within the 30 second window. -/
def specConfirmationResolves (msgs : List PairMessage) : Bool :=
  msgs.any confirmingMessage

/-- Outcome of the AwaitingSignedCertificate phase: no response within
5000 ms gives a timeout; an on-time response with a status code other than
"200 OK" is rejected carrying the raw response; otherwise the response is
accepted. -/
def csrPhase : Option CsrResponse → Except PairError CsrResponse
  | none => .error .csrTimeout
  | some r =>
    if r.arrival < 5000 then
      if r.statusCode = "200 OK" then .ok r
      else .error (.csrRejected r)
    else .error .csrTimeout

/-- Identity assignment on pairing success: the recorded id when the paired
host is a key of the discovered-bridges mapping, the UNKNOWN sentinel
otherwise. -/
def resolvePairedId (m : String → Option String) (host : String) : String :=
  match m host with
  | some bid => bid
  | none => UNKNOWN_BRIDGE_ID

/-- The pairWithBridge state machine: connect, await physical confirmation,
generate keys, submit the CSR and await the signing response, then assign
the bridge identity and store the certificate bundle.  Every failure path of
the source returns (or throws, for key generation) without touching the
stored state. -/
def pairWithBridge (s : ModuleState) (env : PairEnv) : PairResult :=
  if env.connectOk then
    if confirmationResolves env.messages then
      if env.keygenOk then
        match csrPhase env.csrResponse with
        | .error e =>
          { state := s, outcome := some e,
            trace := [.pairStart, .keygen, .csrSubmit, .pairDone (some e)] }
        | .ok r =>
          let bid := resolvePairedId s.discoveredBridges s.config.host
          let certs : BridgeCerts :=
            { ca := r.rootCertificate, certificate := r.certificate,
              privateKey := env.privateKeyPem }
          { state :=
              { s with
                config := { s.config with bridgeID := some bid },
                secrets := { bridgeCerts := some certs } },
            outcome := none,
            trace := [.pairStart, .keygen, .csrSubmit, .persistCerts certs,
                      .pairDone none] }
      else
        { state := s, outcome := some .keyGenerationFailed,
          trace := [.pairStart, .keygen, .pairDone (some .keyGenerationFailed)] }
    else
      { state := s, outcome := some .pairingTimeout,
        trace := [.pairStart, .pairDone (some .pairingTimeout)] }
  else
    { state := s, outcome := some .transportError,
      trace := [.pairStart, .pairDone (some .transportError)] }

/-- Truthiness of the configured bridge id as tested by the guard of
connectToBridge (undefined and the empty string are falsy in JS). -/
def truthyId : Option String → Bool
  | none => false
  | some s => !(s == "")

/-- One step of the device enumeration loop in connectToBridge: per-item
errors are skipped; while the bridge id is the UNKNOWN sentinel a
SmartBridge item resolves the id and is not added to the list; every other
device is added exactly when it has an associated area. -/
def processDevice (acc : Option String × List DeviceDefinition)
    (item : EnumItem) : Option String × List DeviceDefinition :=
  match item with
  | .err _ => acc
  | .dev d =>
    if acc.1 = some UNKNOWN_BRIDGE_ID ∧ d.DeviceType = "SmartBridge" then
      (some d.SerialNumber, acc.2)
    else if d.AssociatedArea.isSome then
      (acc.1, acc.2 ++ [d])
    else
      acc

/-- The connectToBridge operation: fail fast when the bridge id is falsy or
no bundle is stored, otherwise open the authenticated session with the
stored bundle and run the enumeration loop over the current state.  The
device list is appended to, never cleared, exactly as the source pushes into
this.devicesOnBridge. -/
def connectToBridge (s : ModuleState) (env : ConnectEnv) : RunResult :=
  match s.secrets.bridgeCerts with
  | none => { state := s, trace := [] }
  | some certs =>
    if truthyId s.config.bridgeID then
      if env.connectOk then
        let r := env.devices.foldl processDevice
          (s.config.bridgeID, s.devicesOnBridge)
        { state :=
            { s with
              config := { s.config with bridgeID := r.1 },
              devicesOnBridge := r.2 },
          trace := [.sessionConnect s.config.host certs, .enumerate] }
      else
        { state := s, trace := [.sessionConnect s.config.host certs] }
    else
      { state := s, trace := [] }

/-- The init entry point: always start discovery, then connect exactly when
a certificate bundle is stored. -/
def init (s : ModuleState) (cenv : ConnectEnv) : RunResult :=
  match s.secrets.bridgeCerts with
  | none => { state := s, trace := [.discoveryStart] }
  | some _ =>
    let r := connectToBridge s cenv
    { state := r.state, trace := .discoveryStart :: r.trace }

/-- The configUpdated entry point: adopt the new configuration and secrets;
when the host changed, run a fresh pairing attempt to completion before
re-running init.  A key-generation failure is an uncaught promise rejection
in the source, so it aborts configUpdated before init is reached; every
other pairing outcome falls through to init. -/
def configUpdated (s : ModuleState) (newConfig : ModuleConfig)
    (newSecrets : ModuleSecrets) (penv : PairEnv) (cenv : ConnectEnv) :
    RunResult :=
  let s1 : ModuleState := { s with config := newConfig, secrets := newSecrets }
  if newConfig.host ≠ s.config.host then
    let pr := pairWithBridge s1 penv
    if pr.outcome = some PairError.keyGenerationFailed then
      { state := pr.state, trace := pr.trace }
    else
      let ir := init pr.state cenv
      { state := ir.state, trace := pr.trace ++ ir.trace }
  else
    let ir := init s1 cenv
    { state := ir.state, trace := ir.trace }

/-- Upsert of one discovery event into the discovered-bridges mapping
(the handler registered by startDiscovery). -/
def upsertBridge (m : String → Option String) (addr bid : String) :
    String → Option String :=
  fun a => if a = addr then some bid else m a

/-- Application of a finite sequence of discovery events, in arrival order,
to the discovered-bridges mapping. -/
def applyDiscovery (m : String → Option String)
    (events : List (String × String)) : String → Option String :=
  events.foldl (fun acc e => upsertBridge acc e.1 e.2) m

/-- Success predicate of one pairWithBridge environment: the run reaches the
store step exactly when the transport connects, the confirmation wait
resolves, key generation succeeds and the CSR response is accepted. -/
def pairSucceeds (env : PairEnv) : Bool :=
  env.connectOk && confirmationResolves env.messages && env.keygenOk &&
    (match csrPhase env.csrResponse with
     | .ok _ => true
     | .error _ => false)

/-- Root certificate of the stored bundle, as an optional field. -/
def storedRootCert (s : ModuleState) : Option String :=
  s.secrets.bridgeCerts.map BridgeCerts.ca

/-- Client certificate of the stored bundle, as an optional field. -/
def storedClientCert (s : ModuleState) : Option String :=
  s.secrets.bridgeCerts.map BridgeCerts.certificate

/-- Private key of the stored bundle, as an optional field. -/
def storedPrivateKey (s : ModuleState) : Option String :=
  s.secrets.bridgeCerts.map BridgeCerts.privateKey

/-- A control-unit enumeration item: an ok device whose type is SmartBridge. -/
def isControlUnit : EnumItem → Bool
  | .err _ => false
  | .dev d => d.DeviceType == "SmartBridge"

/-- No item of the enumeration is the control unit of the bridge. -/
def noControlUnit (items : List EnumItem) : Bool :=
  items.all (fun i => !isControlUnit i)

/-- The device-list contribution of an enumeration when no item resolves the
identity: ok devices that have an associated area, in order. -/
def areaFilter : List EnumItem → List DeviceDefinition
  | [] => []
  | .err _ :: rest => areaFilter rest
  | .dev d :: rest =>
    if d.AssociatedArea.isSome then d :: areaFilter rest else areaFilter rest

/-- The device-list contribution of an enumeration in general, threading the
identity exactly as the loop does: while the identity is the UNKNOWN
sentinel, a control-unit item is consumed to resolve the identity and is not
appended; every other ok device is appended exactly when it has an
associated area. -/
def enumAppended : Option String → List EnumItem → List DeviceDefinition
  | _, [] => []
  | bid, .err _ :: rest => enumAppended bid rest
  | bid, .dev d :: rest =>
    if bid = some UNKNOWN_BRIDGE_ID ∧ d.DeviceType = "SmartBridge" then
      enumAppended (some d.SerialNumber) rest
    else if d.AssociatedArea.isSome then
      d :: enumAppended bid rest
    else
      enumAppended bid rest

/-- The identity after the enumeration loop, threading the same resolution
branch as enumAppended. -/
def enumResolvedId : Option String → List EnumItem → Option String
  | bid, [] => bid
  | bid, .err _ :: rest => enumResolvedId bid rest
  | bid, .dev d :: rest =>
    if bid = some UNKNOWN_BRIDGE_ID ∧ d.DeviceType = "SmartBridge" then
      enumResolvedId (some d.SerialNumber) rest
    else
      enumResolvedId bid rest

/-- A state with no bundle, no identity and an empty registry. -/
def baseState : ModuleState :=
  { config := { host := "192.168.0.40", port := 0, bridgeID := none },
    secrets := { bridgeCerts := none },
    discoveredBridges := fun _ => none,
    devicesOnBridge := [] }

/-- A successful CSR signing response. -/
def okCsr : CsrResponse :=
  { statusCode := "200 OK", rootCertificate := "ROOTPEM",
    certificate := "CERTPEM", arrival := 100 }

/-- An environment in which every phase of pairing succeeds at once. -/
def envPairOk : PairEnv :=
  { connectOk := true,
    messages := [{ permissions := ["PhysicalAccess"], arrival := 500 }],
    keygenOk := true, privateKeyPem := "KEYPEM", csrResponse := some okCsr }

/-- Message sequence for the confirmation wait: a non-confirming message at
1000 ms followed by a confirming one at 2000 ms, both inside the window. -/
def c1Messages : List PairMessage :=
  [{ permissions := ["LocalSigning"], arrival := 1000 },
   { permissions := ["PhysicalAccess"], arrival := 2000 }]

/-- A pairing environment that delivers c1Messages and would succeed in
every later phase. -/
def env1c : PairEnv :=
  { connectOk := true, messages := c1Messages, keygenOk := true,
    privateKeyPem := "KEYPEM", csrResponse := some okCsr }

/-- An environment whose confirmation wait sees one non-confirming message. -/
def env5w : PairEnv :=
  { connectOk := true,
    messages := [{ permissions := ["LocalSigning"], arrival := 400 }],
    keygenOk := true, privateKeyPem := "KEYPEM", csrResponse := some okCsr }

/-- An environment in which confirmation succeeds but the CSR response never
arrives. -/
def env6w : PairEnv :=
  { connectOk := true,
    messages := [{ permissions := ["PhysicalAccess"], arrival := 400 }],
    keygenOk := true, privateKeyPem := "KEYPEM", csrResponse := none }

/-- A state whose registry maps the configured host to the id BR123. -/
def s7w : ModuleState :=
  { config := { host := "192.168.0.40", port := 0, bridgeID := none },
    secrets := { bridgeCerts := none },
    discoveredBridges := fun a => if a = "192.168.0.40" then some "BR123" else none,
    devicesOnBridge := [] }

/-- A dimmer device enumerated by a first connection. -/
def dOld : DeviceDefinition :=
  { Name := "Old Dimmer", SerialNumber := "111", DeviceType := "WallDimmer",
    ModelNumber := "PD-6WCL", AssociatedArea := some "area1" }

/-- A dimmer device enumerated by a second connection. -/
def dNew : DeviceDefinition :=
  { Name := "New Dimmer", SerialNumber := "222", DeviceType := "WallDimmer",
    ModelNumber := "PD-6WCL", AssociatedArea := some "area2" }

/-- A complete certificate bundle. -/
def bundleA : BridgeCerts :=
  { ca := "CAPEM", certificate := "CERTPEM", privateKey := "KEYPEM" }

/-- A state with a stored bundle and a resolved identity and an empty device
list. -/
def s3start : ModuleState :=
  { config := { host := "192.168.0.50", port := 0, bridgeID := some "BRIDGE77" },
    secrets := { bridgeCerts := some bundleA },
    discoveredBridges := fun _ => none,
    devicesOnBridge := [] }

/-- A connection whose enumeration reports only dOld. -/
def envA : ConnectEnv := { connectOk := true, devices := [.dev dOld] }

/-- A connection whose enumeration reports only dNew. -/
def envB : ConnectEnv := { connectOk := true, devices := [.dev dNew] }

/-- The control unit of a bridge, as it appears in the enumeration. -/
def dSmart : DeviceDefinition :=
  { Name := "Smart Bridge", SerialNumber := "SN42", DeviceType := "SmartBridge",
    ModelNumber := "L-BDG2", AssociatedArea := none }

/-- A state with a stored bundle and the UNKNOWN sentinel identity. -/
def s4w : ModuleState :=
  { config := { host := "192.168.0.60", port := 0, bridgeID := some UNKNOWN_BRIDGE_ID },
    secrets := { bridgeCerts := some bundleA },
    discoveredBridges := fun _ => none,
    devicesOnBridge := [] }

/-- A connection whose enumeration reports only the control unit. -/
def env4w : ConnectEnv := { connectOk := true, devices := [.dev dSmart] }

/-- An environment whose pairing transport connect fails outright. -/
def envPairFail : PairEnv :=
  { connectOk := false, messages := [], keygenOk := true,
    privateKeyPem := "KEYPEM", csrResponse := none }

/-- A new configuration with a changed host. -/
def cfg10 : ModuleConfig :=
  { host := "192.168.0.99", port := 0, bridgeID := some "BRIDGE77" }

/-- The persisted secrets offered on a configuration update: the bundle
issued by the old bridge. -/
def sec10 : ModuleSecrets := { bridgeCerts := some bundleA }

/-- An empty discovered-bridges mapping. -/
def emptyRegistry : String → Option String := fun _ => none

/-- Two discovery events for distinct addresses. -/
def discEvents : List (String × String) :=
  [("10.0.0.1", "A"), ("10.0.0.2", "B")]

/-- The same two discovery events in the other order. -/
def discEventsPerm : List (String × String) :=
  [("10.0.0.2", "B"), ("10.0.0.1", "A")]

/-- Three discovery events where one address repeats. -/
def discEventsRepeat : List (String × String) :=
  [("10.0.0.1", "A"), ("10.0.0.2", "B"), ("10.0.0.1", "C")]

/-- Helper lemma: when the code resolves the confirmation wait, a confirming
message did arrive within the window. -/
theorem confirm_implies_spec {msgs : List PairMessage}
    (h : confirmationResolves msgs = true) :
    specConfirmationResolves msgs = true := by
  cases msgs with
  | nil => simp [confirmationResolves] at h
  | cons m rest =>
    simp only [confirmationResolves] at h
    simp [specConfirmationResolves, List.any_cons, h]

/-- C1: the claim states that during the confirmation wait every
non-confirming inbound message is ignored and the wait continues, so a later
confirming message inside the 30 second window still resolves the wait.  The
code registers its handler with client.once, so the first non-confirming
message consumes the handler, a later confirming message is never examined,
and the attempt ends in PairingTimeout: the code model rejects exactly the
message sequence that the specification model accepts. -/
theorem C1_once_listener_bug :
    confirmationResolves c1Messages = false ∧
    specConfirmationResolves c1Messages = true ∧
    pairWithBridge baseState env1c =
      { state := baseState, outcome := some PairError.pairingTimeout,
        trace := [Event.pairStart, Event.pairDone (some PairError.pairingTimeout)] } :=
  ⟨by decide, by decide, rfl⟩

/-- C2: every execution of pair leaves the stored credential bundle
all-or-nothing: the resulting state either has all three fields of the
bundle present or none of them. -/
theorem C2_bundle_all_or_nothing (s : ModuleState) (env : PairEnv) :
    ((storedRootCert (pairWithBridge s env).state).isSome ∧
     (storedClientCert (pairWithBridge s env).state).isSome ∧
     (storedPrivateKey (pairWithBridge s env).state).isSome) ∨
    (storedRootCert (pairWithBridge s env).state = none ∧
     storedClientCert (pairWithBridge s env).state = none ∧
     storedPrivateKey (pairWithBridge s env).state = none) := by
  cases h : (pairWithBridge s env).state.secrets.bridgeCerts with
  | none =>
    right
    simp [storedRootCert, storedClientCert, storedPrivateKey, h]
  | some c =>
    left
    simp [storedRootCert, storedClientCert, storedPrivateKey, h]

/-- C5: when no confirming message arrives within the 30 second window, the
pairing attempt fails with PairingTimeout, the state is unchanged (nothing
persisted), and the trace shows that key generation was never reached. -/
theorem C5_confirmation_timeout (s : ModuleState) (env : PairEnv)
    (hconn : env.connectOk = true)
    (hnomsg : specConfirmationResolves env.messages = false) :
    pairWithBridge s env =
      { state := s, outcome := some PairError.pairingTimeout,
        trace := [Event.pairStart, Event.pairDone (some PairError.pairingTimeout)] } ∧
    Event.keygen ∉ (pairWithBridge s env).trace := by
  have hc : confirmationResolves env.messages = false := by
    cases h : confirmationResolves env.messages
    · rfl
    · exact absurd (confirm_implies_spec h) (by simp [hnomsg])
  have hmain : pairWithBridge s env =
      { state := s, outcome := some PairError.pairingTimeout,
        trace := [Event.pairStart, Event.pairDone (some PairError.pairingTimeout)] } := by
    simp [pairWithBridge, hconn, hc]
  refine ⟨hmain, ?_⟩
  rw [hmain]
  simp

/-- Witness for C5 at a concrete state and environment. -/
theorem C5_confirmation_timeout_witness :
    pairWithBridge baseState env5w =
      { state := baseState, outcome := some PairError.pairingTimeout,
        trace := [Event.pairStart, Event.pairDone (some PairError.pairingTimeout)] } ∧
    Event.keygen ∉ (pairWithBridge baseState env5w).trace :=
  C5_confirmation_timeout baseState env5w rfl (by decide)

/-- C6: when confirmation arrived but the CSR response is missing or late,
the attempt fails with CsrTimeout and nothing is persisted; when it arrives
in time with a non-success status code, the attempt fails with CsrRejected
carrying the raw response, again persisting nothing. -/
theorem C6_csr_failure (s : ModuleState) (env : PairEnv)
    (hconn : env.connectOk = true)
    (hconfirm : confirmationResolves env.messages = true)
    (hkeys : env.keygenOk = true) :
    (env.csrResponse = none →
      pairWithBridge s env =
        { state := s, outcome := some PairError.csrTimeout,
          trace := [Event.pairStart, Event.keygen, Event.csrSubmit,
                    Event.pairDone (some PairError.csrTimeout)] }) ∧
    (∀ r, env.csrResponse = some r → 5000 ≤ r.arrival →
      pairWithBridge s env =
        { state := s, outcome := some PairError.csrTimeout,
          trace := [Event.pairStart, Event.keygen, Event.csrSubmit,
                    Event.pairDone (some PairError.csrTimeout)] }) ∧
    (∀ r, env.csrResponse = some r → r.arrival < 5000 → r.statusCode ≠ "200 OK" →
      pairWithBridge s env =
        { state := s, outcome := some (PairError.csrRejected r),
          trace := [Event.pairStart, Event.keygen, Event.csrSubmit,
                    Event.pairDone (some (PairError.csrRejected r))] }) := by
  refine ⟨?_, ?_, ?_⟩
  · intro hr
    simp [pairWithBridge, hconn, hconfirm, hkeys, csrPhase, hr]
  · intro r hr hlate
    have : ¬ r.arrival < 5000 := not_lt.mpr hlate
    simp [pairWithBridge, hconn, hconfirm, hkeys, csrPhase, hr, this]
  · intro r hr htime hcode
    simp [pairWithBridge, hconn, hconfirm, hkeys, csrPhase, hr, htime, hcode]

/-- Witness for C6 at a concrete state and environment where the response
never arrives. -/
theorem C6_csr_failure_witness :
    pairWithBridge baseState env6w =
      { state := baseState, outcome := some PairError.csrTimeout,
        trace := [Event.pairStart, Event.keygen, Event.csrSubmit,
                  Event.pairDone (some PairError.csrTimeout)] } :=
  (C6_csr_failure baseState env6w rfl (by decide) rfl).1 rfl

/-- C7: when pairing completes successfully, the assigned identity is the
registry entry for the paired host when one exists, and the UNKNOWN sentinel
otherwise. -/
theorem C7_identity_assignment (s : ModuleState) (env : PairEnv)
    (hsucc : (pairWithBridge s env).outcome = none) :
    (∀ bid, s.discoveredBridges s.config.host = some bid →
      (pairWithBridge s env).state.config.bridgeID = some bid) ∧
    (s.discoveredBridges s.config.host = none →
      (pairWithBridge s env).state.config.bridgeID = some UNKNOWN_BRIDGE_ID) := by
  cases hc : env.connectOk with
  | false => simp [pairWithBridge, hc] at hsucc
  | true =>
    cases hm : confirmationResolves env.messages with
    | false => simp [pairWithBridge, hc, hm] at hsucc
    | true =>
      cases hk : env.keygenOk with
      | false => simp [pairWithBridge, hc, hm, hk] at hsucc
      | true =>
        cases hcsr : csrPhase env.csrResponse with
        | error e => simp [pairWithBridge, hc, hm, hk, hcsr] at hsucc
        | ok r =>
          constructor
          · intro bid hbid
            simp [pairWithBridge, hc, hm, hk, hcsr, resolvePairedId, hbid]
          · intro hnone
            simp [pairWithBridge, hc, hm, hk, hcsr, resolvePairedId, hnone]

/-- Witness for C7: with the host present in the registry the identity
becomes the recorded id. -/
theorem C7_identity_assignment_witness :
    (pairWithBridge s7w envPairOk).state.config.bridgeID = some "BR123" :=
  (C7_identity_assignment s7w envPairOk (by decide)).1 "BR123" (by decide)

/-- Helper lemma: the enumeration loop computes exactly the threaded
identity and the previous list with the threaded device contribution
appended, for every starting identity. -/
theorem foldl_processDevice_eq (items : List EnumItem) :
    ∀ (bid : Option String) (lst : List DeviceDefinition),
      items.foldl processDevice (bid, lst) =
        (enumResolvedId bid items, lst ++ enumAppended bid items) := by
  induction items with
  | nil => intro bid lst; simp [enumResolvedId, enumAppended]
  | cons item rest ih =>
    intro bid lst
    cases item with
    | err m =>
      rw [List.foldl_cons, show processDevice (bid, lst) (EnumItem.err m) = (bid, lst) from rfl,
        ih bid lst]
      simp [enumResolvedId, enumAppended]
    | dev d =>
      by_cases hcond : bid = some UNKNOWN_BRIDGE_ID ∧ d.DeviceType = "SmartBridge"
      · have hstep : processDevice (bid, lst) (EnumItem.dev d)
            = (some d.SerialNumber, lst) := by
          simp [processDevice, hcond]
        rw [List.foldl_cons, hstep, ih (some d.SerialNumber) lst]
        simp [enumResolvedId, enumAppended, hcond]
      · by_cases ha : d.AssociatedArea.isSome
        · have hstep : processDevice (bid, lst) (EnumItem.dev d)
              = (bid, lst ++ [d]) := by
            simp [processDevice, hcond, ha]
          rw [List.foldl_cons, hstep, ih bid (lst ++ [d])]
          simp [enumResolvedId, enumAppended, hcond, ha]
        · have hstep : processDevice (bid, lst) (EnumItem.dev d) = (bid, lst) := by
            simp [processDevice, hcond, ha]
          rw [List.foldl_cons, hstep, ih bid lst]
          simp [enumResolvedId, enumAppended, hcond, ha]

/-- Helper lemma: over a stretch of the enumeration containing no
control-unit item, the loop keeps the identity and appends exactly the
area-filtered devices. -/
theorem foldl_processDevice_no_control (items : List EnumItem)
    (hnc : noControlUnit items = true) :
    ∀ (o : Option String) lst,
      items.foldl processDevice (o, lst) = (o, lst ++ areaFilter items) := by
  induction items with
  | nil => intro o lst; simp [areaFilter]
  | cons item rest ih =>
    intro o lst
    have hsplit : (!isControlUnit item) = true ∧ noControlUnit rest = true := by
      simpa [noControlUnit, List.all_cons] using hnc
    cases item with
    | err m =>
      rw [List.foldl_cons, show processDevice (o, lst) (EnumItem.err m) = (o, lst) from rfl,
        ih hsplit.2 o lst]
      simp [areaFilter]
    | dev d =>
      have hd : ¬ d.DeviceType = "SmartBridge" := by
        have := hsplit.1
        simpa [isControlUnit] using this
      have hcond : ¬ (o = some UNKNOWN_BRIDGE_ID ∧ d.DeviceType = "SmartBridge") :=
        fun hc => hd hc.2
      by_cases ha : d.AssociatedArea.isSome
      · have hstep : processDevice (o, lst) (EnumItem.dev d) = (o, lst ++ [d]) := by
          simp [processDevice, hcond, ha]
        rw [List.foldl_cons, hstep, ih hsplit.2 o (lst ++ [d])]
        simp [areaFilter, ha]
      · have hstep : processDevice (o, lst) (EnumItem.dev d) = (o, lst) := by
          simp [processDevice, hcond, ha]
        rw [List.foldl_cons, hstep, ih hsplit.2 o lst]
        simp [areaFilter, ha]

/-- Helper lemma: every device in the area-filtered list comes from an ok
item of the enumeration. -/
theorem mem_areaFilter {d : DeviceDefinition} {items : List EnumItem}
    (h : d ∈ areaFilter items) : EnumItem.dev d ∈ items := by
  induction items with
  | nil => simp [areaFilter] at h
  | cons item rest ih =>
    cases item with
    | err m =>
      simp only [areaFilter] at h
      exact List.mem_cons_of_mem _ (ih h)
    | dev d' =>
      by_cases ha : d'.AssociatedArea.isSome
      · simp only [areaFilter, if_pos ha] at h
        rcases List.mem_cons.mp h with h1 | h2
        · subst h1; exact List.mem_cons_self _ _
        · exact List.mem_cons_of_mem _ (ih h2)
      · simp only [areaFilter, if_neg ha] at h
        exact List.mem_cons_of_mem _ (ih h)

/-- Helper lemma: a control-unit device cannot be in the area-filtered list
of a control-unit-free stretch of the enumeration. -/
theorem not_mem_areaFilter_of_no_control {d : DeviceDefinition}
    {items : List EnumItem} (hnc : noControlUnit items = true)
    (htype : d.DeviceType = "SmartBridge") : d ∉ areaFilter items := by
  intro hmem
  have hin := mem_areaFilter hmem
  have hall := List.all_eq_true.mp hnc _ hin
  simp [isControlUnit, htype] at hall

/-- C3 counterexample: after a second successful connection, the device list
still contains the device enumerated by the first connection although the
second enumeration does not report it, refuting the claim that the list is
rebuilt in full from the current enumeration with no carryover. -/
theorem C3_carryover_counterexample :
    dOld ∈ (connectToBridge (connectToBridge s3start envA).state envB).state.devicesOnBridge ∧
    EnumItem.dev dOld ∉ envB.devices := by
  constructor
  · decide
  · decide

/-- C3 amended: on every successful connection the device list is appended
to, not rebuilt: after connectToBridge completes, the device list equals the
previous device list with this enumeration's filtered devices (ok items,
not consumed as control-unit identity resolution, having an associated
area) appended; entries from previous connections are carried over, never
cleared. -/
theorem C3_list_appended (s : ModuleState) (env : ConnectEnv)
    (certs : BridgeCerts)
    (htruthy : truthyId s.config.bridgeID = true)
    (hcerts : s.secrets.bridgeCerts = some certs)
    (hconn : env.connectOk = true) :
    (connectToBridge s env).state.devicesOnBridge =
      s.devicesOnBridge ++ enumAppended s.config.bridgeID env.devices := by
  simp [connectToBridge, hcerts, htruthy, hconn,
    foldl_processDevice_eq env.devices s.config.bridgeID s.devicesOnBridge]

/-- Witness for the amended C3 at a concrete state and connection. -/
theorem C3_list_appended_witness :
    (connectToBridge s3start envA).state.devicesOnBridge =
      s3start.devicesOnBridge ++ enumAppended s3start.config.bridgeID envA.devices :=
  C3_list_appended s3start envA bundleA (by decide) rfl rfl

/-- C4: with a stored bundle and the UNKNOWN sentinel identity, a successful
connection whose enumeration contains the control unit of the bridge with
serial x (and no other control-unit item) makes the persisted identity x,
and the control unit does not appear in the resulting device list. -/
theorem C4_identity_resolution (s : ModuleState) (env : ConnectEnv)
    (certs : BridgeCerts) (d0 : DeviceDefinition) (x : String)
    (pre post : List EnumItem)
    (hcerts : s.secrets.bridgeCerts = some certs)
    (hbid : s.config.bridgeID = some UNKNOWN_BRIDGE_ID)
    (hfresh : s.devicesOnBridge = [])
    (hconn : env.connectOk = true)
    (hdevs : env.devices = pre ++ EnumItem.dev d0 :: post)
    (hpre : noControlUnit pre = true)
    (hpost : noControlUnit post = true)
    (htype : d0.DeviceType = "SmartBridge")
    (hserial : d0.SerialNumber = x) :
    (connectToBridge s env).state.config.bridgeID = some x ∧
    d0 ∉ (connectToBridge s env).state.devicesOnBridge := by
  have htruthy : truthyId s.config.bridgeID = true := by
    rw [hbid]; decide
  have hfold : env.devices.foldl processDevice (s.config.bridgeID, s.devicesOnBridge)
      = (some x, areaFilter pre ++ areaFilter post) := by
    rw [hdevs, hbid, hfresh, List.foldl_append,
      foldl_processDevice_no_control pre hpre _ _, List.foldl_cons]
    have hstep : processDevice (some UNKNOWN_BRIDGE_ID, [] ++ areaFilter pre)
        (EnumItem.dev d0) = (some d0.SerialNumber, [] ++ areaFilter pre) := by
      simp [processDevice, htype]
    rw [hstep, foldl_processDevice_no_control post hpost _ _]
    simp [hserial]
  constructor
  · simp [connectToBridge, hcerts, htruthy, hconn, hfold]
  · simp only [connectToBridge, hcerts, htruthy, hconn, if_true, hfold]
    intro hmem
    rcases List.mem_append.mp hmem with h | h
    · exact not_mem_areaFilter_of_no_control hpre htype h
    · exact not_mem_areaFilter_of_no_control hpost htype h

/-- Witness for C4 at a concrete state whose enumeration reports exactly the
control unit. -/
theorem C4_identity_resolution_witness :
    (connectToBridge s4w env4w).state.config.bridgeID = some "SN42" ∧
    dSmart ∉ (connectToBridge s4w env4w).state.devicesOnBridge :=
  C4_identity_resolution s4w env4w bundleA dSmart "SN42" [] []
    rfl rfl rfl rfl rfl rfl rfl rfl rfl

/-- Helper lemma: when the environment does not satisfy the success
predicate, pairWithBridge leaves the state unchanged and reports an error. -/
theorem pair_fail_state (s : ModuleState) (env : PairEnv)
    (h : pairSucceeds env = false) :
    (pairWithBridge s env).state = s ∧ (pairWithBridge s env).outcome ≠ none := by
  cases hc : env.connectOk with
  | false => simp [pairWithBridge, hc]
  | true =>
    cases hm : confirmationResolves env.messages with
    | false => simp [pairWithBridge, hc, hm]
    | true =>
      cases hk : env.keygenOk with
      | false => simp [pairWithBridge, hc, hm, hk]
      | true =>
        cases hcsr : csrPhase env.csrResponse with
        | error e => simp [pairWithBridge, hc, hm, hk, hcsr]
        | ok r => simp [pairSucceeds, hc, hm, hk, hcsr] at h

/-- Helper lemma: the trace of every pairing attempt starts with pairStart,
ends with a pairDone event, and contains no session connect before that
completion event. -/
theorem pair_trace_shape (s : ModuleState) (env : PairEnv) :
    ∃ e mid, (pairWithBridge s env).trace =
        Event.pairStart :: (mid ++ [Event.pairDone e]) ∧
      ∀ h b, Event.sessionConnect h b ∉ (Event.pairStart :: mid) := by
  cases hc : env.connectOk with
  | false =>
    refine ⟨some .transportError, [], by simp [pairWithBridge, hc], ?_⟩
    intro h b; simp
  | true =>
    cases hm : confirmationResolves env.messages with
    | false =>
      refine ⟨some .pairingTimeout, [], by simp [pairWithBridge, hc, hm], ?_⟩
      intro h b; simp
    | true =>
      cases hk : env.keygenOk with
      | false =>
        refine ⟨some .keyGenerationFailed, [Event.keygen],
          by simp [pairWithBridge, hc, hm, hk], ?_⟩
        intro h b; simp
      | true =>
        cases hcsr : csrPhase env.csrResponse with
        | error e =>
          refine ⟨some e, [Event.keygen, Event.csrSubmit],
            by simp [pairWithBridge, hc, hm, hk, hcsr], ?_⟩
          intro h b; simp
        | ok r =>
          refine ⟨none, [Event.keygen, Event.csrSubmit,
            Event.persistCerts ⟨r.rootCertificate, r.certificate, env.privateKeyPem⟩],
            by simp [pairWithBridge, hc, hm, hk, hcsr], ?_⟩
          intro h b; simp

/-- Helper lemma: no pairing attempt emits a session connect event. -/
theorem pair_trace_no_session (s : ModuleState) (env : PairEnv)
    (h : String) (b : BridgeCerts) :
    Event.sessionConnect h b ∉ (pairWithBridge s env).trace := by
  obtain ⟨e, mid, htr, hnos⟩ := pair_trace_shape s env
  rw [htr]
  intro hmem
  rcases List.mem_cons.mp hmem with h1 | h2
  · cases h1
  · rcases List.mem_append.mp h2 with h3 | h4
    · exact hnos h b (List.mem_cons_of_mem _ h3)
    · simp at h4

/-- Helper lemma: init never changes the stored secrets. -/
theorem init_preserves_secrets (s : ModuleState) (cenv : ConnectEnv) :
    (init s cenv).state.secrets = s.secrets := by
  cases hsec : s.secrets.bridgeCerts with
  | none => simp [init, hsec]
  | some certs =>
    by_cases ht : truthyId s.config.bridgeID = true
    · cases hco : cenv.connectOk with
      | false => simp [init, connectToBridge, hsec, ht, hco]
      | true => simp [init, connectToBridge, hsec, ht, hco]
    · simp [init, connectToBridge, hsec, ht]

/-- Helper lemma: a session connect emitted by init goes to the configured
host and offers exactly the stored bundle. -/
theorem init_session_connect (s : ModuleState) (cenv : ConnectEnv)
    (h : String) (b : BridgeCerts)
    (hmem : Event.sessionConnect h b ∈ (init s cenv).trace) :
    h = s.config.host ∧ s.secrets.bridgeCerts = some b := by
  cases hsec : s.secrets.bridgeCerts with
  | none => simp [init, hsec] at hmem
  | some certs =>
    by_cases ht : truthyId s.config.bridgeID = true
    · cases hco : cenv.connectOk with
      | false =>
        simp [init, connectToBridge, hsec, ht, hco] at hmem
        exact ⟨hmem.1, by simp [hsec, hmem.2]⟩
      | true =>
        simp [init, connectToBridge, hsec, ht, hco] at hmem
        exact ⟨hmem.1, by simp [hsec, hmem.2]⟩
    · simp [init, connectToBridge, hsec, ht] at hmem

/-- C8: on a configuration update that changes the host, the resulting event
trace begins with the forced pairing attempt, and that attempt completes
(its pairDone event occurs) before any session connect: no reconnection to
the new host precedes the pairing attempt. -/
theorem C8_repair_before_reconnect (s : ModuleState) (newConfig : ModuleConfig)
    (newSecrets : ModuleSecrets) (penv : PairEnv) (cenv : ConnectEnv)
    (hhost : newConfig.host ≠ s.config.host) :
    ∃ e mid post,
      (configUpdated s newConfig newSecrets penv cenv).trace =
        Event.pairStart :: (mid ++ Event.pairDone e :: post) ∧
      ∀ h b, Event.sessionConnect h b ∉ (Event.pairStart :: mid) := by
  obtain ⟨e, mid, htr, hnos⟩ :=
    pair_trace_shape { s with config := newConfig, secrets := newSecrets } penv
  by_cases hkg :
      (pairWithBridge { s with config := newConfig, secrets := newSecrets } penv).outcome
        = some PairError.keyGenerationFailed
  · refine ⟨e, mid, [], ?_, hnos⟩
    simp [configUpdated, hhost, hkg, htr]
  · refine ⟨e, mid,
      (init (pairWithBridge { s with config := newConfig, secrets := newSecrets }
        penv).state cenv).trace, ?_, hnos⟩
    simp [configUpdated, hhost, hkg, htr]

/-- Witness for C8: a host change with an immediately failing pairing
transport still yields a trace whose pairing attempt completes first. -/
theorem C8_repair_before_reconnect_witness :
    ∃ e mid post,
      (configUpdated s3start cfg10 sec10 envPairFail envA).trace =
        Event.pairStart :: (mid ++ Event.pairDone e :: post) ∧
      ∀ h b, Event.sessionConnect h b ∉ (Event.pairStart :: mid) :=
  C8_repair_before_reconnect s3start cfg10 sec10 envPairFail envA (by decide)

/-- Helper lemma: the registry after a finite event sequence assigns each
address the bridgeId of the last event for that address, falling back to
the prior mapping. -/
theorem applyDiscovery_last_wins (events : List (String × String)) :
    ∀ (m : String → Option String) (addr : String),
      applyDiscovery m events addr =
        match events.reverse.find? (fun e => e.1 == addr) with
        | some e => some e.2
        | none => m addr := by
  induction events with
  | nil => intro m addr; simp [applyDiscovery]
  | cons e rest ih =>
    intro m addr
    have hstep : applyDiscovery m (e :: rest) addr
        = applyDiscovery (upsertBridge m e.1 e.2) rest addr := rfl
    rw [hstep, ih, List.reverse_cons, List.find?_append]
    cases hfind : rest.reverse.find? (fun e => e.1 == addr) with
    | some e' => rw [Option.or_some]
    | none =>
      rw [Option.none_or]
      by_cases ha : e.1 = addr
      · have hb : (e.1 == addr) = true := beq_iff_eq.mpr ha
        have ha' : addr = e.1 := ha.symm
        simp [List.find?_cons, hb, upsertBridge, ha']
      · have hb : (e.1 == addr) = false := beq_eq_false_iff_ne.mpr ha
        have ha' : ¬ addr = e.1 := fun hh => ha hh.symm
        simp [List.find?_cons, hb, upsertBridge, ha']

/-- Helper lemma: upserts under distinct addresses commute. -/
theorem upsert_comm (m : String → Option String) (x y : String × String)
    (hxy : x.1 ≠ y.1) :
    upsertBridge (upsertBridge m x.1 x.2) y.1 y.2 =
      upsertBridge (upsertBridge m y.1 y.2) x.1 x.2 := by
  funext a
  have hyx : ¬ y.1 = x.1 := fun hh => hxy hh.symm
  by_cases hay : a = y.1
  · by_cases hax : a = x.1
    · exact absurd (hax.symm.trans hay) hxy
    · simp [upsertBridge, hax, hay, hyx]
  · by_cases hax : a = x.1
    · simp [upsertBridge, hax, hay, hxy]
    · simp [upsertBridge, hax, hay]

/-- Helper lemma: a permutation of discovery events with pairwise distinct
addresses yields the same final mapping. -/
theorem applyDiscovery_perm (m : String → Option String)
    {events evperm : List (String × String)}
    (hperm : events.Perm evperm)
    (hnodup : (events.map Prod.fst).Nodup) :
    applyDiscovery m events = applyDiscovery m evperm := by
  unfold applyDiscovery
  refine hperm.foldl_eq' ?_ m
  intro x hx y hy z
  by_cases hxy : x = y
  · rw [hxy]
  · have hfst : x.1 ≠ y.1 := by
      intro he
      exact hxy (List.inj_on_of_nodup_map hnodup hx hy he)
    exact upsert_comm z x y hfst

/-- C9: for every finite event sequence (repeated addresses included) the
final registry mapping assigns each address the bridgeId of the last event
for that address, falling back to the prior mapping; and permuting a
sequence of events with pairwise distinct addresses leaves the final
mapping unchanged. -/
theorem C9_registry_semantics (m : String → Option String)
    (events evperm : List (String × String)) (addr : String) :
    (applyDiscovery m events addr =
      match events.reverse.find? (fun e => e.1 == addr) with
      | some e => some e.2
      | none => m addr) ∧
    (events.Perm evperm → (events.map Prod.fst).Nodup →
      applyDiscovery m events = applyDiscovery m evperm) :=
  ⟨applyDiscovery_last_wins events m addr,
   fun hperm hnodup => applyDiscovery_perm m hperm hnodup⟩

/-- Witness for C9: last-wins exercised on a sequence with a repeated
address, permutation invariance on two events with distinct addresses. -/
theorem C9_registry_semantics_witness :
    (applyDiscovery emptyRegistry discEventsRepeat "10.0.0.1" =
      match discEventsRepeat.reverse.find? (fun e => e.1 == "10.0.0.1") with
      | some e => some e.2
      | none => emptyRegistry "10.0.0.1") ∧
    applyDiscovery emptyRegistry discEvents =
      applyDiscovery emptyRegistry discEventsPerm :=
  ⟨(C9_registry_semantics emptyRegistry discEventsRepeat discEventsRepeat "10.0.0.1").1,
   (C9_registry_semantics emptyRegistry discEvents discEventsPerm "10.0.0.1").2
     (by decide) (by decide)⟩

/-- C10: every failure exit of pairWithBridge leaves the state (stored
bundle and identity) unchanged, and after a host change whose forced
re-pairing fails, the previously stored bundle remains stored and is exactly
the bundle offered by any subsequent session connect, which goes to the new
host. -/
theorem C10_failure_preserves_bundle (s : ModuleState)
    (newConfig : ModuleConfig) (newSecrets : ModuleSecrets)
    (penv : PairEnv) (cenv : ConnectEnv)
    (hfail : pairSucceeds penv = false) :
    ((pairWithBridge s penv).state = s ∧ (pairWithBridge s penv).outcome ≠ none) ∧
    (newConfig.host ≠ s.config.host →
      (configUpdated s newConfig newSecrets penv cenv).state.secrets = newSecrets ∧
      (∀ h b,
        Event.sessionConnect h b ∈ (configUpdated s newConfig newSecrets penv cenv).trace →
        h = newConfig.host ∧ newSecrets.bridgeCerts = some b)) := by
  refine ⟨pair_fail_state s penv hfail, ?_⟩
  intro hhost
  have hst := (pair_fail_state { s with config := newConfig, secrets := newSecrets } penv hfail).1
  have hnos := pair_trace_no_session { s with config := newConfig, secrets := newSecrets } penv
  by_cases hkg :
      (pairWithBridge { s with config := newConfig, secrets := newSecrets } penv).outcome
        = some PairError.keyGenerationFailed
  · constructor
    · simp [configUpdated, hhost, hkg, hst]
    · intro h b hmem
      have hmem' : Event.sessionConnect h b ∈
          (pairWithBridge { s with config := newConfig, secrets := newSecrets } penv).trace := by
        simpa [configUpdated, hhost, hkg] using hmem
      exact absurd hmem' (hnos h b)
  · have hsecr :
        (init (pairWithBridge { s with config := newConfig, secrets := newSecrets }
          penv).state cenv).state.secrets = newSecrets := by
      rw [hst]
      exact init_preserves_secrets _ cenv
    constructor
    · simp [configUpdated, hhost, hkg, hsecr]
    · intro h b hmem
      have hmem' : Event.sessionConnect h b ∈
          (pairWithBridge { s with config := newConfig, secrets := newSecrets } penv).trace ++
          (init (pairWithBridge { s with config := newConfig, secrets := newSecrets }
            penv).state cenv).trace := by
        simpa [configUpdated, hhost, hkg] using hmem
      rcases List.mem_append.mp hmem' with h1 | h2
      · exact absurd h1 (hnos h b)
      · rw [hst] at h2
        exact init_session_connect _ cenv h b h2

/-- Witness for C10: host change with a failing pairing transport keeps the
old bundle stored. -/
theorem C10_failure_preserves_bundle_witness :
    (pairWithBridge s3start envPairFail).state = s3start ∧
    (configUpdated s3start cfg10 sec10 envPairFail envA).state.secrets = sec10 :=
  ⟨(C10_failure_preserves_bundle s3start cfg10 sec10 envPairFail envA rfl).1.1,
   ((C10_failure_preserves_bundle s3start cfg10 sec10 envPairFail envA rfl).2
     (by decide)).1⟩

end Caseta
